import Mathlib

/-!
# Verification of the bq_sync pull pipeline

A shallow embedding of the `bq_sync` Python package (decision engine in
`fetch.py`, orchestrator in `pull.py`, serializers in `writers.py`, the byte
humanizer in `humanize.py`, and the table data export in `bq_client.py`).

Modelling conventions:
* `datetime` values are abstracted to integers (`Int`), ordered the way UTC
  datetimes are ordered; `isoformat` is rendered through their canonical
  decimal representation.  Only ordering and equality of timestamps matter to
  the decision engine, and only determinism of the rendering matters to the
  writers.
* The filesystem is a map from paths to file contents
  (`Fs := FPath → Option String`); `Path.is_file()` is `(fs p).isSome` and
  `Path.write_text` is a pointwise update.  Directory creation
  (`mkdir(parents=True, exist_ok=True)`) does not change any file content and
  is therefore invisible in this map.
* Results of external subprocess and network calls (git, BigQuery listings)
  are supplied as oracles/environment fields; the calls themselves are
  recorded as explicit events in an effect trace.
* Python floats in `humanize_bytes` are modelled by rationals, with `"%.1f"`
  formatting modelled by round-half-to-even at one decimal place (exact for
  all values reachable in the properties proved here, where the divisions by
  1024 are exact in double precision as well).
-/

namespace BqSync

/-- A filesystem path, as the ordered list of its components.  Mirrors how
`pull.py` builds every destination path with the `/` operator; `str(path)`
joins components with `"/"` and `path.name` is the last component. -/
structure FPath where
  parts : List String
deriving DecidableEq, Repr

/-- `str(path)` — components joined by `/`. -/
def FPath.str (p : FPath) : String :=
  String.intercalate "/" p.parts

/-- `path.name` — the final component (empty for an empty path). -/
def FPath.name (p : FPath) : String :=
  (p.parts.getLast?).getD ""

/-- `path / s` — append a component. -/
def FPath.child (p : FPath) (s : String) : FPath :=
  ⟨p.parts ++ [s]⟩

/-- The filesystem as a partial map from paths to text contents. -/
abbrev Fs := FPath → Option String

/-- `path.write_text(content)` on the filesystem map: the file's previous
content (if any) is replaced. -/
def write_file (path : FPath) (content : String) (fs : Fs) : Fs :=
  fun q => if q = path then some content else fs q

/-- `FetchAction` from `fetch.py`: the outcomes of the fetch decision
matrix. -/
inductive FetchAction where
  | FETCH
  | SKIP
  | WARN
deriving DecidableEq, Repr

/-- Outcome of a `subprocess.run(..., check=True)` call: captured stdout on
success, or a failure (`CalledProcessError` on non-zero exit, `OSError` when
the binary cannot be spawned). -/
inductive SubprocessOutcome where
  | ok (stdout : String)
  | failed (err : String)
deriving DecidableEq, Repr

/-- `git_committed_time` from `fetch.py`.  The `git log -1 --format=%cI`
subprocess is abstracted by its outcome `run`; `parseIso` stands for
`datetime.fromisoformat(...).astimezone(utc)` on the well-formed `%cI`
output.  A failed subprocess or empty output yields `none` ("no git
history"). -/
def git_committed_time (run : SubprocessOutcome) (parseIso : String → Int) :
    Option Int :=
  match run with
  | .failed _ => none
  | .ok stdout =>
      let raw := stdout.trim
      if raw = "" then none else some (parseIso raw)

/-- `has_uncommitted_changes` from `fetch.py`.  The
`git status --porcelain -- <output_root>` subprocess is abstracted by its
outcome; nonempty trimmed output means uncommitted tracked changes, and a
failed subprocess means `False` ("no changes"). -/
def has_uncommitted_changes (run : SubprocessOutcome) : Bool :=
  match run with
  | .failed _ => false
  | .ok stdout => !(stdout.trim = "")

/-- `resolve` from `fetch.py`: the fetch decision matrix.  `git` is the
oracle giving `git_committed_time` per path and `fs` gives `file.is_file()`.
The `assert bq_modified is not None` in the source discharges the
(unreachable) case where the remote timestamp is absent after the
`bq_exists` branches, so the embedding matches on `bq_modified` directly. -/
def resolve (git : FPath → Option Int) (fs : Fs)
    (bq_modified : Option Int) (file : FPath) (force : Bool) : FetchAction :=
  if force then .FETCH
  else
    match bq_modified, (fs file).isSome with
    | none, false => .SKIP
    | none, true => .WARN
    | some _, false => .FETCH
    | some t, true =>
        match git file with
        | none => .WARN
        | some committed => if t ≤ committed then .SKIP else .FETCH

/-- Round-half-to-even to an integer, the rounding `"%.1f"` applies to the
(here always exactly representable) scaled value. -/
def roundHalfEven (q : ℚ) : Int :=
  let f := q.floor
  let r := q - (f : ℚ)
  if r < 1 / 2 then f
  else if 1 / 2 < r then f + 1
  else if f % 2 = 0 then f else f + 1

/-- Format a rational with exactly one decimal digit, as Python's
`f"{value:.1f}"` does for exactly representable values. -/
def fmt1 (q : ℚ) : String :=
  let n := roundHalfEven (q * 10)
  let sign := if n < 0 then "-" else ""
  let a := n.natAbs
  sign ++ toString (a / 10) ++ "." ++ toString (a % 10)

/-- Python's `abs` on the rational model of a float. -/
def ratAbs (q : ℚ) : ℚ :=
  if q < 0 then -q else q

/-- The unit loop of `humanize_bytes` (`for unit in units[:-1]: ...`); the
argument list is `units[:-1] = ["B", "KiB", "MiB", "GiB", "TiB"]` and the
fall-through after the loop formats with the final unit `"PiB"`. -/
def hbLoop (n : Int) (value : ℚ) : List String → String
  | [] => fmt1 value ++ " PiB"
  | unit :: rest =>
      if ratAbs value < 1024 then
        if unit = "B" then toString n ++ " B" else fmt1 value ++ " " ++ unit
      else hbLoop n (value / 1024) rest

/-- `humanize_bytes` from `humanize.py`: binary (1024) prefixes, one decimal
place, units B/KiB/MiB/GiB/TiB/PiB; `None → ""`; negative values pass through
unconverted with a `" B"` suffix. -/
def humanize_bytes : Option Int → String
  | none => ""
  | some n =>
      if n < 0 then toString n ++ " B"
      else hbLoop n (n : ℚ) ["B", "KiB", "MiB", "GiB", "TiB"]

/-- One field of a table/view schema, as the dict
`{"name", "type", "mode", "description"}` built in `bq_client.py` and
consumed by `_format_schema_lines` in `writers.py`. -/
structure SchemaField where
  name : String
  type : String
  mode : String
  description : String
deriving DecidableEq, Repr

/-- One routine argument, as the dict `{"name", "type", "mode"}` built in
`bq_client.py` and consumed by `write_routine_model_yaml`. -/
structure ArgField where
  name : String
  type : String
  mode : String
deriving DecidableEq, Repr

/-- `ViewInfo`, with the fields the writers and orchestrator consult (the
values `bq_client.list_views` fills in). -/
structure ViewInfo where
  name : String
  sql : String
  modified : Int
  schema : List SchemaField
  description : String
  created : Option Int
  region : Option String
deriving DecidableEq, Repr

/-- `RoutineInfo`, with the fields the writers and orchestrator consult. -/
structure RoutineInfo where
  name : String
  sql : String
  language : String
  modified : Int
  description : String
  created : Option Int
  arguments : List ArgField
  return_type : Option String
deriving DecidableEq, Repr

/-- `TableInfo`, with the fields the writers and orchestrator consult. -/
structure TableInfo where
  name : String
  schema : List SchemaField
  description : String
  row_count : Int
  modified : Int
  partitioning : Option String
  clustering : Option (List String)
  created : Option Int
  region : Option String
  primary_keys : Option (List String)
  total_logical_bytes : Option Int
deriving DecidableEq, Repr

/-- `ExternalTableInfo`, with the fields the writers and orchestrator
consult. -/
structure ExternalTableInfo where
  name : String
  source_uris : List String
  schema : List SchemaField
  source_format : String
  modified : Int
  description : String
  created : Option Int
  region : Option String
  row_count : Int
  partitioning : Option String
  clustering : Option (List String)
  primary_keys : Option (List String)
  total_logical_bytes : Option Int
deriving DecidableEq, Repr

/-- `ScheduledQueryInfo`. -/
structure ScheduledQueryInfo where
  name : String
  sql : String
  schedule : String
  modified : Int
deriving DecidableEq, Repr

/-- `SavedQueryInfo`. -/
structure SavedQueryInfo where
  name : String
  sql : String
  modified : Int
deriving DecidableEq, Repr

/-- Lowercase hexadecimal digit. -/
def jsonHexDigit (n : Nat) : Char :=
  if n < 10 then Char.ofNat (48 + n) else Char.ofNat (87 + n)

/-- Four lowercase hex digits, as in Python's `\uXXXX` escapes. -/
def jsonU4 (n : Nat) : String :=
  String.mk [jsonHexDigit (n / 4096 % 16), jsonHexDigit (n / 256 % 16),
    jsonHexDigit (n / 16 % 16), jsonHexDigit (n % 16)]

/-- Escape one character the way `json.dumps` (with its default
`ensure_ascii=True`) escapes characters inside a string literal. -/
def jsonEscapeChar (c : Char) : String :=
  if c = '"' then "\\\""
  else if c = '\\' then "\\\\"
  else if c = '\n' then "\\n"
  else if c = '\t' then "\\t"
  else if c = '\r' then "\\r"
  else if c = Char.ofNat 8 then "\\b"
  else if c = Char.ofNat 12 then "\\f"
  else if c.toNat < 32 then "\\u" ++ jsonU4 c.toNat
  else if c.toNat < 127 then String.singleton c
  else if c.toNat < 65536 then "\\u" ++ jsonU4 c.toNat
  else
    let v := c.toNat - 65536
    "\\u" ++ jsonU4 (55296 + v / 1024) ++ "\\u" ++ jsonU4 (56320 + v % 1024)

/-- `json.dumps` on a string (the only use the writers make of it). -/
def jsonDumps (s : String) : String :=
  "\"" ++ String.join (s.toList.map jsonEscapeChar) ++ "\""

/-- `datetime.isoformat()` under the timestamp abstraction: the canonical
rendering of the integer timestamp (injective and deterministic, which is
all the writer properties rely on). -/
def isofmt (t : Int) : String := toString t

/-- Python truthiness of an optional string (`None` and `""` are falsy). -/
def optStrTruthy : Option String → Bool
  | none => false
  | some s => !s.isEmpty

/-- Python truthiness of an optional list (`None` and `[]` are falsy). -/
def optListTruthy : Option (List String) → Bool
  | none => false
  | some l => !l.isEmpty

/-- `_format_schema_lines` from `writers.py`. -/
def format_schema_lines (schema : List SchemaField) : List String :=
  "schema:" :: schema.map (fun f =>
    "  - name: " ++ f.name ++ "  type: " ++ f.type ++
    "  mode: " ++ f.mode ++ "  description: " ++ jsonDumps f.description)

/-- The text `write_view_sql` writes: the view SQL, verbatim. -/
def view_sql_content (view : ViewInfo) : String :=
  view.sql

/-- The text `write_routine_sql` writes: name/language comment header then
the SQL body. -/
def routine_sql_content (routine : RoutineInfo) : String :=
  "-- Routine: " ++ routine.name ++ "\n-- Language: " ++ routine.language ++
    "\n\n" ++ routine.sql

/-- The text `write_scheduled_query_sql` writes. -/
def scheduled_query_sql_content (sq : ScheduledQueryInfo) : String :=
  "-- Scheduled Query: " ++ sq.name ++ "\n-- Schedule: " ++ sq.schedule ++
    "\n\n" ++ sq.sql

/-- The text `write_saved_query_sql` writes. -/
def saved_query_sql_content (saved : SavedQueryInfo) : String :=
  "-- Saved Query: " ++ saved.name ++ "\n\n" ++ saved.sql

/-- The text `write_model_yaml` writes for a table. -/
def model_yaml_content (table : TableInfo) : String :=
  let lines :=
    ["name: " ++ table.name,
     "description: " ++ jsonDumps table.description,
     "row_count: " ++ toString table.row_count]
  let lines := lines ++
    (match table.created with
     | some c => ["created: " ++ isofmt c]
     | none => [])
  let lines := lines ++ ["modified: " ++ isofmt table.modified]
  let lines := lines ++
    (if optStrTruthy table.region then
      ["region: " ++ table.region.getD ""] else [])
  let lines := lines ++
    (if optStrTruthy table.partitioning then
      ["partitioning: " ++ table.partitioning.getD ""] else [])
  let lines := lines ++
    (if optListTruthy table.clustering then
      ["clustering: [" ++
        String.intercalate ", " (table.clustering.getD []) ++ "]"] else [])
  let lines := lines ++
    (if optListTruthy table.primary_keys then
      ["primary_keys: [" ++
        String.intercalate ", " (table.primary_keys.getD []) ++ "]"] else [])
  let lines := lines ++
    (match table.total_logical_bytes with
     | some b => ["total_logical_bytes: " ++ humanize_bytes (some b)]
     | none => [])
  let lines := lines ++ format_schema_lines table.schema
  String.intercalate "\n" lines ++ "\n"

/-- The text `write_view_model_yaml` writes. -/
def view_model_yaml_content (view : ViewInfo) : String :=
  let lines :=
    ["name: " ++ view.name,
     "description: " ++ jsonDumps view.description,
     "type: VIEW"]
  let lines := lines ++
    (match view.created with
     | some c => ["created: " ++ isofmt c]
     | none => [])
  let lines := lines ++ ["modified: " ++ isofmt view.modified]
  let lines := lines ++
    (if optStrTruthy view.region then
      ["region: " ++ view.region.getD ""] else [])
  let lines := lines ++ format_schema_lines view.schema
  String.intercalate "\n" lines ++ "\n"

/-- The text `write_routine_model_yaml` writes. -/
def routine_model_yaml_content (routine : RoutineInfo) : String :=
  let lines :=
    ["name: " ++ routine.name,
     "description: " ++ jsonDumps routine.description,
     "language: " ++ routine.language]
  let lines := lines ++
    (match routine.created with
     | some c => ["created: " ++ isofmt c]
     | none => [])
  let lines := lines ++ ["modified: " ++ isofmt routine.modified]
  let lines := lines ++
    (if optStrTruthy routine.return_type then
      ["return_type: " ++ routine.return_type.getD ""] else [])
  let lines := lines ++
    (if !routine.arguments.isEmpty then
      "arguments:" :: routine.arguments.map (fun arg =>
        "  - name: " ++ arg.name ++ "  type: " ++ arg.type ++
        "  mode: " ++ arg.mode)
     else [])
  String.intercalate "\n" lines ++ "\n"

/-- The text `write_external_definition` writes. -/
def external_definition_content (ext : ExternalTableInfo) : String :=
  let lines :=
    ["name: " ++ ext.name,
     "description: " ++ jsonDumps ext.description,
     "source_format: " ++ ext.source_format,
     "source_uris:"]
  let lines := lines ++ ext.source_uris.map (fun uri => "  - " ++ uri)
  let lines := lines ++
    (match ext.created with
     | some c => ["created: " ++ isofmt c]
     | none => [])
  let lines := lines ++ ["modified: " ++ isofmt ext.modified]
  let lines := lines ++
    (if optStrTruthy ext.region then
      ["region: " ++ ext.region.getD ""] else [])
  let lines := lines ++ ["row_count: " ++ toString ext.row_count]
  let lines := lines ++
    (if optStrTruthy ext.partitioning then
      ["partitioning: " ++ ext.partitioning.getD ""] else [])
  let lines := lines ++
    (if optListTruthy ext.clustering then
      ["clustering: [" ++
        String.intercalate ", " (ext.clustering.getD []) ++ "]"] else [])
  let lines := lines ++
    (if optListTruthy ext.primary_keys then
      ["primary_keys: [" ++
        String.intercalate ", " (ext.primary_keys.getD []) ++ "]"] else [])
  let lines := lines ++
    (match ext.total_logical_bytes with
     | some b => ["total_logical_bytes: " ++ humanize_bytes (some b)]
     | none => [])
  let lines := lines ++ format_schema_lines ext.schema
  String.intercalate "\n" lines ++ "\n"

/-- `write_view_sql` from `writers.py`, on the filesystem map (parent
directory creation does not affect file contents). -/
def write_view_sql (path : FPath) (view : ViewInfo) (fs : Fs) : Fs :=
  write_file path (view_sql_content view) fs

/-- `write_routine_sql` from `writers.py`. -/
def write_routine_sql (path : FPath) (routine : RoutineInfo) (fs : Fs) : Fs :=
  write_file path (routine_sql_content routine) fs

/-- `write_scheduled_query_sql` from `writers.py`. -/
def write_scheduled_query_sql (path : FPath) (sq : ScheduledQueryInfo)
    (fs : Fs) : Fs :=
  write_file path (scheduled_query_sql_content sq) fs

/-- `write_saved_query_sql` from `writers.py`. -/
def write_saved_query_sql (path : FPath) (saved : SavedQueryInfo)
    (fs : Fs) : Fs :=
  write_file path (saved_query_sql_content saved) fs

/-- `write_model_yaml` from `writers.py`. -/
def write_model_yaml (path : FPath) (table : TableInfo) (fs : Fs) : Fs :=
  write_file path (model_yaml_content table) fs

/-- `write_view_model_yaml` from `writers.py`. -/
def write_view_model_yaml (path : FPath) (view : ViewInfo) (fs : Fs) : Fs :=
  write_file path (view_model_yaml_content view) fs

/-- `write_routine_model_yaml` from `writers.py`. -/
def write_routine_model_yaml (path : FPath) (routine : RoutineInfo)
    (fs : Fs) : Fs :=
  write_file path (routine_model_yaml_content routine) fs

/-- `write_external_definition` from `writers.py`. -/
def write_external_definition (path : FPath) (ext : ExternalTableInfo)
    (fs : Fs) : Fs :=
  write_file path (external_definition_content ext) fs

/-- `ProjectConfig` from `config.py`. -/
structure ProjectConfig where
  id : String
  default_region : String
deriving DecidableEq, Repr

/-- `SyncConfig` from `config.py`. -/
structure SyncConfig where
  project : ProjectConfig
  datasets : List String
  output_dir : String
deriving DecidableEq, Repr

/-- `resolve_output_dir` from `config.py`: the config file's parent joined
with `output_dir` and then the project id.  Path normalisation
(`Path.resolve`) is identity under this abstraction (paths are compared as
the values the orchestrator constructs from this root). -/
def resolve_output_dir (config : SyncConfig) (config_parent : FPath) :
    FPath :=
  (config_parent.child config.output_dir).child config.project.id

/-- Effects performed by the orchestrator, in program order:
`precheck` marks the evaluation of the uncommitted-changes precondition
guard in `pull_project`, `gitStatus` the `git status --porcelain` subprocess
inside `has_uncommitted_changes`, `netcall` one listing/reading call to a
Google Cloud API, `writeEv` one `write_text` on a destination file, and
`exitEv` a `sys.exit`. -/
inductive Event where
  | precheck
  | gitStatus
  | netcall (api : String)
  | writeEv (path : FPath) (content : String)
  | exitEv (code : Nat)
deriving DecidableEq, Repr

/-- `_should_process` from `pull.py`: with no force-file list every file
passes; with a list, the full path string or the bare file name must be
listed. -/
def should_process (file : FPath) (force_files : Option (List String)) :
    Bool :=
  match force_files with
  | none => true
  | some l => l.contains (FPath.str file) || l.contains (FPath.name file)

/-- The `is_forced` local computed for every resource in `pull.py`:
`force and _should_process(path, force_files)`. -/
def is_forced_for (force : Bool) (force_files : Option (List String))
    (path : FPath) : Bool :=
  force && should_process path force_files

/-- `ds_dir / "views" / f"{view.name}.sql"`. -/
def view_sql_path (ds_dir : FPath) (view : ViewInfo) : FPath :=
  (ds_dir.child "views").child (view.name ++ ".sql")

/-- `ds_dir / "models" / f"{view.name}.yaml"`. -/
def view_model_path (ds_dir : FPath) (view : ViewInfo) : FPath :=
  (ds_dir.child "models").child (view.name ++ ".yaml")

/-- `ds_dir / "routines" / f"{routine.name}.sql"`. -/
def routine_sql_path (ds_dir : FPath) (routine : RoutineInfo) : FPath :=
  (ds_dir.child "routines").child (routine.name ++ ".sql")

/-- `ds_dir / "models" / f"{routine.name}.yaml"`. -/
def routine_model_path (ds_dir : FPath) (routine : RoutineInfo) : FPath :=
  (ds_dir.child "models").child (routine.name ++ ".yaml")

/-- `ds_dir / "models" / f"{table.name}.yaml"`. -/
def table_model_path (ds_dir : FPath) (table : TableInfo) : FPath :=
  (ds_dir.child "models").child (table.name ++ ".yaml")

/-- `ds_dir / "models" / f"{ext.name}.yaml"`. -/
def external_model_path (ds_dir : FPath) (ext : ExternalTableInfo) : FPath :=
  (ds_dir.child "models").child (ext.name ++ ".yaml")

/-- `output_root / "scheduled_queries" / f"{sq.name}.sql"`. -/
def scheduled_query_path (output_root : FPath) (sq : ScheduledQueryInfo) :
    FPath :=
  (output_root.child "scheduled_queries").child (sq.name ++ ".sql")

/-- `output_root / "saved_queries" / f"{saved.name}.sql"`. -/
def saved_query_path (output_root : FPath) (saved : SavedQueryInfo) :
    FPath :=
  (output_root.child "saved_queries").child (saved.name ++ ".sql")

/-- The `action` local of the views loop:
`resolve(view.modified, sql_path, force=is_forced)`. -/
def view_action (git : FPath → Option Int) (fs : Fs) (ds_dir : FPath)
    (force : Bool) (force_files : Option (List String)) (view : ViewInfo) :
    FetchAction :=
  resolve git fs (some view.modified) (view_sql_path ds_dir view)
    (is_forced_for force force_files (view_sql_path ds_dir view))

/-- The `action` local of the routines loop. -/
def routine_action (git : FPath → Option Int) (fs : Fs) (ds_dir : FPath)
    (force : Bool) (force_files : Option (List String))
    (routine : RoutineInfo) : FetchAction :=
  resolve git fs (some routine.modified) (routine_sql_path ds_dir routine)
    (is_forced_for force force_files (routine_sql_path ds_dir routine))

/-- The `action` local of the models loop. -/
def table_action (git : FPath → Option Int) (fs : Fs) (ds_dir : FPath)
    (force : Bool) (force_files : Option (List String)) (table : TableInfo) :
    FetchAction :=
  resolve git fs (some table.modified) (table_model_path ds_dir table)
    (is_forced_for force force_files (table_model_path ds_dir table))

/-- The `action` local of the external-tables loop. -/
def external_action (git : FPath → Option Int) (fs : Fs) (ds_dir : FPath)
    (force : Bool) (force_files : Option (List String))
    (ext : ExternalTableInfo) : FetchAction :=
  resolve git fs (some ext.modified) (external_model_path ds_dir ext)
    (is_forced_for force force_files (external_model_path ds_dir ext))

/-- The `action` local of the scheduled-queries loop. -/
def scheduled_action (git : FPath → Option Int) (fs : Fs)
    (output_root : FPath) (force : Bool)
    (force_files : Option (List String)) (sq : ScheduledQueryInfo) :
    FetchAction :=
  resolve git fs (some sq.modified) (scheduled_query_path output_root sq)
    (is_forced_for force force_files (scheduled_query_path output_root sq))

/-- The `action` local of the saved-queries loop. -/
def saved_action (git : FPath → Option Int) (fs : Fs) (output_root : FPath)
    (force : Bool) (force_files : Option (List String))
    (saved : SavedQueryInfo) : FetchAction :=
  resolve git fs (some saved.modified) (saved_query_path output_root saved)
    (is_forced_for force force_files (saved_query_path output_root saved))

/-- The remote listings, as the environment the BigQuery/DataTransfer/
Dataform clients answer with (per dataset for the first four). -/
structure RemoteEnv where
  views : String → List ViewInfo
  routines : String → List RoutineInfo
  tables : String → List TableInfo
  externals : String → List ExternalTableInfo
  scheduled : List ScheduledQueryInfo
  saved : List SavedQueryInfo

/-- Sequentially run one loop body over a list of resources, threading the
filesystem and concatenating the event traces (the `for` loops of
`pull.py`). -/
def foldSteps (step : Fs → α → Fs × List Event) (fs : Fs) :
    List α → Fs × List Event
  | [] => (fs, [])
  | x :: rest =>
      let r1 := step fs x
      let r2 := foldSteps step r1.1 rest
      (r2.1, r1.2 ++ r2.2)

/-- The loop body of the `# Views` loop in `pull_dataset`. -/
def process_view (git : FPath → Option Int) (fs : Fs) (ds_dir : FPath)
    (dry_run force : Bool) (force_files : Option (List String))
    (view : ViewInfo) : Fs × List Event :=
  let sql_path := view_sql_path ds_dir view
  let model_path := view_model_path ds_dir view
  match view_action git fs ds_dir force force_files view with
  | .SKIP => (fs, [])
  | .WARN => (fs, [])
  | .FETCH =>
      if dry_run then (fs, [])
      else
        (write_view_model_yaml model_path view
           (write_view_sql sql_path view fs),
         [.writeEv sql_path (view_sql_content view),
          .writeEv model_path (view_model_yaml_content view)])

/-- The loop body of the `# Routines` loop in `pull_dataset`. -/
def process_routine (git : FPath → Option Int) (fs : Fs) (ds_dir : FPath)
    (dry_run force : Bool) (force_files : Option (List String))
    (routine : RoutineInfo) : Fs × List Event :=
  let sql_path := routine_sql_path ds_dir routine
  let model_path := routine_model_path ds_dir routine
  match routine_action git fs ds_dir force force_files routine with
  | .SKIP => (fs, [])
  | .WARN => (fs, [])
  | .FETCH =>
      if dry_run then (fs, [])
      else
        (write_routine_model_yaml model_path routine
           (write_routine_sql sql_path routine fs),
         [.writeEv sql_path (routine_sql_content routine),
          .writeEv model_path (routine_model_yaml_content routine)])

/-- The loop body of the `# Models (table metadata)` loop in
`pull_dataset`. -/
def process_table (git : FPath → Option Int) (fs : Fs) (ds_dir : FPath)
    (dry_run force : Bool) (force_files : Option (List String))
    (table : TableInfo) : Fs × List Event :=
  let path := table_model_path ds_dir table
  match table_action git fs ds_dir force force_files table with
  | .SKIP => (fs, [])
  | .WARN => (fs, [])
  | .FETCH =>
      if dry_run then (fs, [])
      else
        (write_model_yaml path table fs,
         [.writeEv path (model_yaml_content table)])

/-- The loop body of the `# External tables` loop in `pull_dataset`. -/
def process_external (git : FPath → Option Int) (fs : Fs) (ds_dir : FPath)
    (dry_run force : Bool) (force_files : Option (List String))
    (ext : ExternalTableInfo) : Fs × List Event :=
  let path := external_model_path ds_dir ext
  match external_action git fs ds_dir force force_files ext with
  | .SKIP => (fs, [])
  | .WARN => (fs, [])
  | .FETCH =>
      if dry_run then (fs, [])
      else
        (write_external_definition path ext fs,
         [.writeEv path (external_definition_content ext)])

/-- The loop body of `pull_scheduled_queries`. -/
def process_scheduled (git : FPath → Option Int) (fs : Fs)
    (output_root : FPath) (dry_run force : Bool)
    (force_files : Option (List String)) (sq : ScheduledQueryInfo) :
    Fs × List Event :=
  let path := scheduled_query_path output_root sq
  match scheduled_action git fs output_root force force_files sq with
  | .SKIP => (fs, [])
  | .WARN => (fs, [])
  | .FETCH =>
      if dry_run then (fs, [])
      else
        (write_scheduled_query_sql path sq fs,
         [.writeEv path (scheduled_query_sql_content sq)])

/-- The loop body of `pull_saved_queries`. -/
def process_saved (git : FPath → Option Int) (fs : Fs)
    (output_root : FPath) (dry_run force : Bool)
    (force_files : Option (List String)) (saved : SavedQueryInfo) :
    Fs × List Event :=
  let path := saved_query_path output_root saved
  match saved_action git fs output_root force force_files saved with
  | .SKIP => (fs, [])
  | .WARN => (fs, [])
  | .FETCH =>
      if dry_run then (fs, [])
      else
        (write_saved_query_sql path saved fs,
         [.writeEv path (saved_query_sql_content saved)])

/-- `pull_dataset` from `pull.py`: four listing calls, each followed by its
resource loop, with the filesystem threaded through all of them. -/
def pull_dataset (git : FPath → Option Int) (remote : RemoteEnv)
    (output_root : FPath) (dataset : String) (dry_run force : Bool)
    (force_files : Option (List String)) (fs : Fs) : Fs × List Event :=
  let ds_dir := output_root.child dataset
  let r1 := foldSteps
    (fun f v => process_view git f ds_dir dry_run force force_files v)
    fs (remote.views dataset)
  let r2 := foldSteps
    (fun f x => process_routine git f ds_dir dry_run force force_files x)
    r1.1 (remote.routines dataset)
  let r3 := foldSteps
    (fun f t => process_table git f ds_dir dry_run force force_files t)
    r2.1 (remote.tables dataset)
  let r4 := foldSteps
    (fun f e => process_external git f ds_dir dry_run force force_files e)
    r3.1 (remote.externals dataset)
  (r4.1,
   Event.netcall "list_views" :: (r1.2 ++
     Event.netcall "list_routines" :: (r2.2 ++
       Event.netcall "list_tables" :: (r3.2 ++
         Event.netcall "list_external_tables" :: r4.2))))

/-- `pull_scheduled_queries` from `pull.py`. -/
def pull_scheduled_queries (git : FPath → Option Int) (remote : RemoteEnv)
    (output_root : FPath) (dry_run force : Bool)
    (force_files : Option (List String)) (fs : Fs) : Fs × List Event :=
  let r := foldSteps
    (fun f sq => process_scheduled git f output_root dry_run force
      force_files sq)
    fs remote.scheduled
  (r.1, Event.netcall "list_scheduled_queries" :: r.2)

/-- `pull_saved_queries` from `pull.py`. -/
def pull_saved_queries (git : FPath → Option Int) (remote : RemoteEnv)
    (output_root : FPath) (dry_run force : Bool)
    (force_files : Option (List String)) (fs : Fs) : Fs × List Event :=
  let r := foldSteps
    (fun f saved => process_saved git f output_root dry_run force
      force_files saved)
    fs remote.saved
  (r.1, Event.netcall "list_saved_queries" :: r.2)

/-- The full environment a `pull_project` run executes against:
remote listings, the per-file `git log` oracle, whether the resolved output
root exists on disk, and the answer `git status` would give for it. -/
structure Env where
  remote : RemoteEnv
  git : FPath → Option Int
  rootExists : Bool
  dirty : Bool
  fs : Fs

/-- The work `pull_project` performs after the precondition guard passes:
all configured datasets, then scheduled queries, then saved queries. -/
def pull_project_body (env : Env) (config : SyncConfig)
    (output_root : FPath) (dry_run force : Bool)
    (force_files : Option (List String)) : Fs × List Event :=
  let r1 := foldSteps
    (fun f d => pull_dataset env.git env.remote output_root d dry_run force
      force_files f)
    env.fs config.datasets
  let r2 := pull_scheduled_queries env.git env.remote output_root dry_run
    force force_files r1.1
  let r3 := pull_saved_queries env.git env.remote output_root dry_run force
    force_files r2.1
  (r3.1, r1.2 ++ r2.2 ++ r3.2)

/-- `pull_project` from `pull.py`.  The guard
`output_root.exists() and has_uncommitted_changes(output_root)` is evaluated
exactly once (the `precheck` event); `and` short-circuits, so the
`git status` subprocess (the `gitStatus` event) only runs when the root
exists.  A tripped guard is `sys.exit(1)` before any listing or write. -/
def pull_project (env : Env) (config : SyncConfig) (config_parent : FPath)
    (dry_run force : Bool) (force_files : Option (List String)) :
    Fs × List Event :=
  let output_root := resolve_output_dir config config_parent
  let guard :=
    if env.rootExists then (env.dirty, [Event.precheck, Event.gitStatus])
    else (false, [Event.precheck])
  if guard.1 then (env.fs, guard.2 ++ [Event.exitEv 1])
  else
    let r := pull_project_body env config output_root dry_run force
      force_files
    (r.1, guard.2 ++ r.2)

/-- The error message `fetch_table_to_file` raises for an unsupported
format (`{fmt!r}` rendered with Python's single-quote repr). -/
def unsupported_format_msg (fmt : String) : String :=
  "Unsupported format: '" ++ fmt ++ "'. Expected 'csv' or 'parquet'."

/-- CSV serialisation of the collected rows (header line then one line per
row), standing in for `polars.DataFrame.write_csv`. -/
def render_csv (cols : List String) (rows : List (List String)) : String :=
  String.intercalate "\n"
    (String.intercalate "," cols :: rows.map (String.intercalate ",")) ++ "\n"

/-- Deterministic stand-in for the binary `polars.DataFrame.write_parquet`
serialisation (its exact bytes are outside this embedding; no property below
depends on them, only on when the write happens). -/
def render_parquet (cols : List String) (rows : List (List String)) :
    String :=
  "PAR1:" ++ render_csv cols rows

/-- `fetch_table_to_file` from `bq_client.py`.  The format check precedes
the client construction, the `list_rows` network call and every filesystem
touch; an unsupported format is a raised `ValueError` (the `.error` case,
with no events performed), otherwise the row stream is serialised and
written to `dest`. -/
def fetch_table_to_file (cols : List String) (rows : List (List String))
    (dest : FPath) (fmt : String) : Except String (List Event) :=
  if !(fmt = "csv" || fmt = "parquet") then
    .error (unsupported_format_msg fmt)
  else
    let content :=
      if fmt = "csv" then render_csv cols rows else render_parquet cols rows
    .ok [Event.netcall "bigquery.list_rows", Event.writeEv dest content]

/-! ### Helper lemmas -/

/-- Overwriting a file with the same content twice is the same as once. -/
theorem write_file_idem (path : FPath) (content : String) (fs : Fs) :
    write_file path content (write_file path content fs) =
      write_file path content fs := by
  funext q
  by_cases h : q = path <;> simp [write_file, h]

theorem process_view_dry (git fs ds_dir force ff v) :
    process_view git fs ds_dir true force ff v = (fs, []) := by
  unfold process_view
  cases view_action git fs ds_dir force ff v <;> simp

theorem process_routine_dry (git fs ds_dir force ff r) :
    process_routine git fs ds_dir true force ff r = (fs, []) := by
  unfold process_routine
  cases routine_action git fs ds_dir force ff r <;> simp

theorem process_table_dry (git fs ds_dir force ff t) :
    process_table git fs ds_dir true force ff t = (fs, []) := by
  unfold process_table
  cases table_action git fs ds_dir force ff t <;> simp

theorem process_external_dry (git fs ds_dir force ff e) :
    process_external git fs ds_dir true force ff e = (fs, []) := by
  unfold process_external
  cases external_action git fs ds_dir force ff e <;> simp

theorem process_scheduled_dry (git fs root force ff sq) :
    process_scheduled git fs root true force ff sq = (fs, []) := by
  unfold process_scheduled
  cases scheduled_action git fs root force ff sq <;> simp

theorem process_saved_dry (git fs root force ff sv) :
    process_saved git fs root true force ff sv = (fs, []) := by
  unfold process_saved
  cases saved_action git fs root force ff sv <;> simp

theorem process_view_not_fetch (git fs ds_dir dry force ff v)
    (h : view_action git fs ds_dir force ff v ≠ .FETCH) :
    process_view git fs ds_dir dry force ff v = (fs, []) := by
  unfold process_view
  cases ha : view_action git fs ds_dir force ff v <;> simp_all

theorem process_routine_not_fetch (git fs ds_dir dry force ff r)
    (h : routine_action git fs ds_dir force ff r ≠ .FETCH) :
    process_routine git fs ds_dir dry force ff r = (fs, []) := by
  unfold process_routine
  cases ha : routine_action git fs ds_dir force ff r <;> simp_all

theorem process_table_not_fetch (git fs ds_dir dry force ff t)
    (h : table_action git fs ds_dir force ff t ≠ .FETCH) :
    process_table git fs ds_dir dry force ff t = (fs, []) := by
  unfold process_table
  cases ha : table_action git fs ds_dir force ff t <;> simp_all

theorem process_external_not_fetch (git fs ds_dir dry force ff e)
    (h : external_action git fs ds_dir force ff e ≠ .FETCH) :
    process_external git fs ds_dir dry force ff e = (fs, []) := by
  unfold process_external
  cases ha : external_action git fs ds_dir force ff e <;> simp_all

theorem process_scheduled_not_fetch (git fs root dry force ff sq)
    (h : scheduled_action git fs root force ff sq ≠ .FETCH) :
    process_scheduled git fs root dry force ff sq = (fs, []) := by
  unfold process_scheduled
  cases ha : scheduled_action git fs root force ff sq <;> simp_all

theorem process_saved_not_fetch (git fs root dry force ff sv)
    (h : saved_action git fs root force ff sv ≠ .FETCH) :
    process_saved git fs root dry force ff sv = (fs, []) := by
  unfold process_saved
  cases ha : saved_action git fs root force ff sv <;> simp_all

/-- Every event a loop body emits is a file write. -/
theorem process_view_events (git fs ds_dir dry force ff v) :
    ∀ e ∈ (process_view git fs ds_dir dry force ff v).2,
      ∃ p c, e = Event.writeEv p c := by
  intro e he
  unfold process_view at he
  · split at he
    · simp at he
    · simp at he
    · split at he
      · simp at he
      · simp at he
        rcases he with h | h <;> exact ⟨_, _, h⟩

theorem process_routine_events (git fs ds_dir dry force ff r) :
    ∀ e ∈ (process_routine git fs ds_dir dry force ff r).2,
      ∃ p c, e = Event.writeEv p c := by
  intro e he
  unfold process_routine at he
  · split at he
    · simp at he
    · simp at he
    · split at he
      · simp at he
      · simp at he
        rcases he with h | h <;> exact ⟨_, _, h⟩

theorem process_table_events (git fs ds_dir dry force ff t) :
    ∀ e ∈ (process_table git fs ds_dir dry force ff t).2,
      ∃ p c, e = Event.writeEv p c := by
  intro e he
  unfold process_table at he
  · split at he
    · simp at he
    · simp at he
    · split at he
      · simp at he
      · simp at he
        exact ⟨_, _, he⟩

theorem process_external_events (git fs ds_dir dry force ff x) :
    ∀ e ∈ (process_external git fs ds_dir dry force ff x).2,
      ∃ p c, e = Event.writeEv p c := by
  intro e he
  unfold process_external at he
  · split at he
    · simp at he
    · simp at he
    · split at he
      · simp at he
      · simp at he
        exact ⟨_, _, he⟩

theorem process_scheduled_events (git fs root dry force ff sq) :
    ∀ e ∈ (process_scheduled git fs root dry force ff sq).2,
      ∃ p c, e = Event.writeEv p c := by
  intro e he
  unfold process_scheduled at he
  · split at he
    · simp at he
    · simp at he
    · split at he
      · simp at he
      · simp at he
        exact ⟨_, _, he⟩

theorem process_saved_events (git fs root dry force ff sv) :
    ∀ e ∈ (process_saved git fs root dry force ff sv).2,
      ∃ p c, e = Event.writeEv p c := by
  intro e he
  unfold process_saved at he
  · split at he
    · simp at he
    · simp at he
    · split at he
      · simp at he
      · simp at he
        exact ⟨_, _, he⟩

theorem foldSteps_const {α : Type _} (step : Fs → α → Fs × List Event)
    (h : ∀ fs x, step fs x = (fs, [])) (fs : Fs) (xs : List α) :
    foldSteps step fs xs = (fs, []) := by
  induction xs generalizing fs with
  | nil => rfl
  | cons x rest ih => simp [foldSteps, h, ih]

theorem foldSteps_events {α : Type _} (step : Fs → α → Fs × List Event)
    (P : Event → Prop) (h : ∀ fs x e, e ∈ (step fs x).2 → P e) (fs : Fs)
    (xs : List α) : ∀ e ∈ (foldSteps step fs xs).2, P e := by
  induction xs generalizing fs with
  | nil => simp [foldSteps]
  | cons x rest ih =>
      intro e he
      simp only [foldSteps, List.mem_append] at he
      rcases he with he | he
      · exact h _ _ _ he
      · exact ih _ _ he

/-- Events the orchestrator body may perform: API calls and file writes. -/
def bodyEvent (e : Event) : Prop :=
  (∃ s, e = Event.netcall s) ∨ ∃ p c, e = Event.writeEv p c

theorem pull_dataset_events (git remote root ds dry force ff fs) :
    ∀ e ∈ (pull_dataset git remote root ds dry force ff fs).2,
      bodyEvent e := by
  intro e he
  simp only [pull_dataset] at he
  rcases List.mem_cons.1 he with rfl | he
  · exact Or.inl ⟨_, rfl⟩
  rcases List.mem_append.1 he with he | he
  · exact foldSteps_events _ bodyEvent
      (fun f v x hx => Or.inr (process_view_events _ _ _ _ _ _ _ x hx)) _ _ _ he
  rcases List.mem_cons.1 he with rfl | he
  · exact Or.inl ⟨_, rfl⟩
  rcases List.mem_append.1 he with he | he
  · exact foldSteps_events _ bodyEvent
      (fun f r x hx => Or.inr (process_routine_events _ _ _ _ _ _ _ x hx)) _ _ _ he
  rcases List.mem_cons.1 he with rfl | he
  · exact Or.inl ⟨_, rfl⟩
  rcases List.mem_append.1 he with he | he
  · exact foldSteps_events _ bodyEvent
      (fun f t x hx => Or.inr (process_table_events _ _ _ _ _ _ _ x hx)) _ _ _ he
  rcases List.mem_cons.1 he with rfl | he
  · exact Or.inl ⟨_, rfl⟩
  exact foldSteps_events _ bodyEvent
    (fun f y x hx => Or.inr (process_external_events _ _ _ _ _ _ _ x hx)) _ _ _ he

theorem pull_scheduled_queries_events (git remote root dry force ff fs) :
    ∀ e ∈ (pull_scheduled_queries git remote root dry force ff fs).2,
      bodyEvent e := by
  intro e he
  simp only [pull_scheduled_queries, List.mem_cons] at he
  rcases he with h | h
  · exact Or.inl ⟨_, h⟩
  · exact foldSteps_events _ bodyEvent
      (fun f sq x hx => Or.inr (process_scheduled_events _ _ _ _ _ _ _ x hx)) _ _ _ h

theorem pull_saved_queries_events (git remote root dry force ff fs) :
    ∀ e ∈ (pull_saved_queries git remote root dry force ff fs).2,
      bodyEvent e := by
  intro e he
  simp only [pull_saved_queries, List.mem_cons] at he
  rcases he with h | h
  · exact Or.inl ⟨_, h⟩
  · exact foldSteps_events _ bodyEvent
      (fun f sv x hx => Or.inr (process_saved_events _ _ _ _ _ _ _ x hx)) _ _ _ h

theorem pull_project_body_events (env config root dry force ff) :
    ∀ e ∈ (pull_project_body env config root dry force ff).2,
      bodyEvent e := by
  intro e he
  simp only [pull_project_body, List.mem_append] at he
  rcases he with (h | h) | h
  · exact foldSteps_events _ bodyEvent
      (fun f d x hx => pull_dataset_events _ _ _ _ _ _ _ _ x hx) _ _ _ h
  · exact pull_scheduled_queries_events _ _ _ _ _ _ _ _ h
  · exact pull_saved_queries_events _ _ _ _ _ _ _ _ h

theorem pull_dataset_dry (git remote root ds force ff fs) :
    pull_dataset git remote root ds true force ff fs =
      (fs, [Event.netcall "list_views", Event.netcall "list_routines",
            Event.netcall "list_tables",
            Event.netcall "list_external_tables"]) := by
  simp only [pull_dataset,
    foldSteps_const _ (fun f v => process_view_dry git f (root.child ds) force ff v),
    foldSteps_const _ (fun f r => process_routine_dry git f (root.child ds) force ff r),
    foldSteps_const _ (fun f t => process_table_dry git f (root.child ds) force ff t),
    foldSteps_const _ (fun f x => process_external_dry git f (root.child ds) force ff x)]
  simp

theorem pull_scheduled_queries_dry (git remote root force ff fs) :
    pull_scheduled_queries git remote root true force ff fs =
      (fs, [Event.netcall "list_scheduled_queries"]) := by
  simp only [pull_scheduled_queries,
    foldSteps_const _ (fun f sq => process_scheduled_dry git f root force ff sq)]

theorem pull_saved_queries_dry (git remote root force ff fs) :
    pull_saved_queries git remote root true force ff fs =
      (fs, [Event.netcall "list_saved_queries"]) := by
  simp only [pull_saved_queries,
    foldSteps_const _ (fun f sv => process_saved_dry git f root force ff sv)]

theorem bodyEvent_ne_precheck {e : Event} (h : bodyEvent e) :
    e ≠ Event.precheck := by
  rcases h with ⟨s, rfl⟩ | ⟨p, c, rfl⟩ <;> simp

theorem bodyEvent_ne_gitStatus {e : Event} (h : bodyEvent e) :
    e ≠ Event.gitStatus := by
  rcases h with ⟨s, rfl⟩ | ⟨p, c, rfl⟩ <;> simp

theorem bodyEvent_ne_exitEv {e : Event} (h : bodyEvent e) (n : Nat) :
    e ≠ Event.exitEv n := by
  rcases h with ⟨s, rfl⟩ | ⟨p, c, rfl⟩ <;> simp

/-! ### Claim theorems -/

/-- C1: for every input to `resolve(bq_modified, file, force)`: `force`
yields FETCH; remote absent and file absent yields SKIP; remote absent and
file present yields WARN; remote present and file absent yields FETCH; both
present with no commit timestamp yields WARN; both present with commit
timestamp `c` yields SKIP when `bq_modified ≤ c` (equality included) and
FETCH when `bq_modified > c`. -/
theorem resolve_decision_matrix (git : FPath → Option Int) (fs : Fs)
    (file : FPath) :
    (∀ bq, resolve git fs bq file true = .FETCH) ∧
    ((fs file).isSome = false → resolve git fs none file false = .SKIP) ∧
    ((fs file).isSome = true → resolve git fs none file false = .WARN) ∧
    (∀ t, (fs file).isSome = false →
      resolve git fs (some t) file false = .FETCH) ∧
    (∀ t, (fs file).isSome = true → git file = none →
      resolve git fs (some t) file false = .WARN) ∧
    (∀ t c, (fs file).isSome = true → git file = some c → t ≤ c →
      resolve git fs (some t) file false = .SKIP) ∧
    (∀ t c, (fs file).isSome = true → git file = some c → c < t →
      resolve git fs (some t) file false = .FETCH) := by
  refine ⟨fun bq => rfl, fun h => ?_, fun h => ?_, fun t h => ?_,
    fun t h hg => ?_, fun t c h hg hle => ?_, fun t c h hg hlt => ?_⟩
  · simp [resolve, h]
  · simp [resolve, h]
  · simp [resolve, h]
  · simp [resolve, h, hg]
  · simp [resolve, h, hg, hle]
  · simp [resolve, h, hg, not_le.mpr hlt]

/-- Witness for C1: concrete SKIP (equal timestamps count as in sync) and
FETCH (remote strictly newer) cases of the matrix. -/
theorem resolve_decision_matrix_witness :
    resolve (fun _ => some 5) (fun _ => some "old") (some 5)
        ⟨["out", "ds", "views", "v.sql"]⟩ false = .SKIP ∧
    resolve (fun _ => some 5) (fun _ => some "old") (some 6)
        ⟨["out", "ds", "views", "v.sql"]⟩ false = .FETCH := by
  constructor
  · exact (resolve_decision_matrix (fun _ => some 5) (fun _ => some "old")
      ⟨["out", "ds", "views", "v.sql"]⟩).2.2.2.2.2.1 5 5 rfl rfl (by decide)
  · exact (resolve_decision_matrix (fun _ => some 5) (fun _ => some "old")
      ⟨["out", "ds", "views", "v.sql"]⟩).2.2.2.2.2.2 6 5 rfl rfl (by decide)

/-- C4: both git queries are total under subprocess failure — a failed
`git log` makes `git_committed_time` return `None` and a failed
`git status` makes `has_uncommitted_changes` return `False`; neither
propagates the error. -/
theorem git_queries_total_on_failure (err : String)
    (parseIso : String → Int) :
    git_committed_time (SubprocessOutcome.failed err) parseIso = none ∧
    has_uncommitted_changes (SubprocessOutcome.failed err) = false :=
  ⟨rfl, rfl⟩

/-- C6: `humanize_bytes` on the specified inputs — `None → ""`,
`0 → "0 B"`, `512 → "512 B"`, `1024 → "1.0 KiB"`, `1048576 → "1.0 MiB"`,
`2·1024³ → "2.0 GiB"`, and every negative `n` passes through unconverted as
`"<n> B"`. -/
theorem humanize_bytes_spec :
    humanize_bytes none = "" ∧
    humanize_bytes (some 0) = "0 B" ∧
    humanize_bytes (some 512) = "512 B" ∧
    humanize_bytes (some 1024) = "1.0 KiB" ∧
    humanize_bytes (some 1048576) = "1.0 MiB" ∧
    humanize_bytes (some (2 * 1024 ^ 3)) = "2.0 GiB" ∧
    ∀ n : Int, n < 0 → humanize_bytes (some n) = toString n ++ " B" := by
  refine ⟨rfl, by decide, by decide, by with_unfolding_all decide,
    by with_unfolding_all decide, by with_unfolding_all decide,
    fun n hn => ?_⟩
  simp only [humanize_bytes]
  rw [if_pos hn]

/-- Witness for C6: the negative passthrough at `-7`. -/
theorem humanize_bytes_spec_witness :
    humanize_bytes (some (-7)) = toString (-7 : Int) ++ " B" :=
  humanize_bytes_spec.2.2.2.2.2.2 (-7) (by decide)

/-- C7: every writer is deterministic and idempotent — writing the same
resource twice to the same path leaves the exact file contents one write
leaves, for all eight writers. -/
theorem writers_idempotent (fs : Fs) (path : FPath) (view : ViewInfo)
    (routine : RoutineInfo) (table : TableInfo) (ext : ExternalTableInfo)
    (sq : ScheduledQueryInfo) (saved : SavedQueryInfo) :
    write_view_sql path view (write_view_sql path view fs) =
      write_view_sql path view fs ∧
    write_routine_sql path routine (write_routine_sql path routine fs) =
      write_routine_sql path routine fs ∧
    write_scheduled_query_sql path sq (write_scheduled_query_sql path sq fs) =
      write_scheduled_query_sql path sq fs ∧
    write_saved_query_sql path saved (write_saved_query_sql path saved fs) =
      write_saved_query_sql path saved fs ∧
    write_model_yaml path table (write_model_yaml path table fs) =
      write_model_yaml path table fs ∧
    write_view_model_yaml path view (write_view_model_yaml path view fs) =
      write_view_model_yaml path view fs ∧
    write_routine_model_yaml path routine
        (write_routine_model_yaml path routine fs) =
      write_routine_model_yaml path routine fs ∧
    write_external_definition path ext
        (write_external_definition path ext fs) =
      write_external_definition path ext fs :=
  ⟨write_file_idem _ _ _, write_file_idem _ _ _, write_file_idem _ _ _,
   write_file_idem _ _ _, write_file_idem _ _ _, write_file_idem _ _ _,
   write_file_idem _ _ _, write_file_idem _ _ _⟩

/-- C8: `fetch_table_to_file` rejects any format other than `"csv"` or
`"parquet"` with a `ValueError` carrying the `Unsupported format` message,
performing no network call and no filesystem touch. -/
theorem fetch_table_unsupported_format (cols : List String)
    (rows : List (List String)) (dest : FPath) (fmt : String)
    (h1 : fmt ≠ "csv") (h2 : fmt ≠ "parquet") :
    fetch_table_to_file cols rows dest fmt =
      .error (unsupported_format_msg fmt) ∧
    ∀ evs, fetch_table_to_file cols rows dest fmt ≠ .ok evs := by
  have he : fetch_table_to_file cols rows dest fmt =
      .error (unsupported_format_msg fmt) := by
    simp [fetch_table_to_file, h1, h2]
  exact ⟨he, fun evs h => by simp [he] at h⟩

/-- Witness for C8: the `"json"` format is rejected as invalid input. -/
theorem fetch_table_unsupported_format_witness :
    fetch_table_to_file ["a"] [["1"]] ⟨["data", "t.json"]⟩ "json" =
      .error (unsupported_format_msg "json") :=
  (fetch_table_unsupported_format ["a"] [["1"]] ⟨["data", "t.json"]⟩ "json"
    (by decide) (by decide)).1

/-- C2: in `pull_project` the uncommitted-changes precondition guard is
evaluated exactly once and before any dataset, scheduled-query or
saved-query processing (the trace begins with the single `precheck`), and
if it trips the run is `sys.exit(1)` with no network call and no file
write performed and the filesystem untouched. -/
theorem pull_project_precondition_once (env : Env) (config : SyncConfig)
    (cp : FPath) (dry_run force : Bool) (ff : Option (List String)) :
    (∃ rest, (pull_project env config cp dry_run force ff).2 =
        Event.precheck :: rest ∧ Event.precheck ∉ rest) ∧
    (env.rootExists = true → env.dirty = true →
      pull_project env config cp dry_run force ff =
        (env.fs, [Event.precheck, Event.gitStatus, Event.exitEv 1]) ∧
      (∀ s, Event.netcall s ∉
        (pull_project env config cp dry_run force ff).2) ∧
      (∀ p c, Event.writeEv p c ∉
        (pull_project env config cp dry_run force ff).2)) := by
  constructor
  · cases hr : env.rootExists
    · refine ⟨(pull_project_body env config (resolve_output_dir config cp)
        dry_run force ff).2, ?_, ?_⟩
      · simp [pull_project, hr]
      · intro hmem
        exact bodyEvent_ne_precheck
          (pull_project_body_events _ _ _ _ _ _ _ hmem) rfl
    · cases hd : env.dirty
      · refine ⟨Event.gitStatus ::
          (pull_project_body env config (resolve_output_dir config cp)
            dry_run force ff).2, ?_, ?_⟩
        · simp [pull_project, hr, hd]
        · intro hmem
          rcases List.mem_cons.1 hmem with h | h
          · exact absurd h (by decide)
          · exact bodyEvent_ne_precheck
              (pull_project_body_events _ _ _ _ _ _ _ h) rfl
      · refine ⟨[Event.gitStatus, Event.exitEv 1], ?_, by decide⟩
        simp [pull_project, hr, hd]
  · intro hr hd
    have heq : pull_project env config cp dry_run force ff =
        (env.fs, [Event.precheck, Event.gitStatus, Event.exitEv 1]) := by
      simp [pull_project, hr, hd]
    refine ⟨heq, ?_, ?_⟩
    · intro s hs
      rw [heq] at hs
      simp at hs
    · intro p c hs
      rw [heq] at hs
      simp at hs

/-- Witness for C2: with an existing dirty output root and a one-dataset
config, the run is exactly the precondition check followed by exit 1. -/
theorem pull_project_precondition_once_witness :
    pull_project
        ⟨⟨fun _ => [], fun _ => [], fun _ => [], fun _ => [], [], []⟩,
          fun _ => none, true, true, fun _ => none⟩
        ⟨⟨"proj", "us-east1"⟩, ["ds"], "out"⟩ ⟨["repo"]⟩ false false none =
      ((fun _ => none : Fs),
       [Event.precheck, Event.gitStatus, Event.exitEv 1]) :=
  ((pull_project_precondition_once
      ⟨⟨fun _ => [], fun _ => [], fun _ => [], fun _ => [], [], []⟩,
        fun _ => none, true, true, fun _ => none⟩
      ⟨⟨"proj", "us-east1"⟩, ["ds"], "out"⟩ ⟨["repo"]⟩ false false none).2
    rfl rfl).1

/-- C3: the force-file filter — with no force-file list the `force` flag
applies to every resource; with a list, a resource whose destination path
appears neither as a full path string nor as a bare file name is decided by
the normal matrix with force treated as false, while a listed resource
under a set force flag is force-fetched. -/
theorem force_file_filter (git : FPath → Option Int) (fs : Fs)
    (m : Option Int) (p : FPath) (force : Bool) :
    (resolve git fs m p (is_forced_for force none p) =
      resolve git fs m p force) ∧
    (∀ l : List String, FPath.str p ∉ l → FPath.name p ∉ l →
      resolve git fs m p (is_forced_for force (some l) p) =
        resolve git fs m p false) ∧
    (∀ l : List String, force = true →
      (FPath.str p ∈ l ∨ FPath.name p ∈ l) →
      resolve git fs m p (is_forced_for force (some l) p) = .FETCH) := by
  refine ⟨?_, fun l h1 h2 => ?_, fun l hf hmem => ?_⟩
  · simp [is_forced_for, should_process]
  · have hsp : should_process p (some l) = false := by
      simp [should_process, h1, h2]
    simp [is_forced_for, hsp]
  · have hsp : should_process p (some l) = true := by
      rcases hmem with h | h <;> simp [should_process, h]
    simp [is_forced_for, hsp, hf, resolve]

/-- Witness for C3: a resource whose bare file name is on the force-file
list is force-fetched even though remote and commit timestamps would say
SKIP. -/
theorem force_file_filter_witness :
    resolve (fun _ => some 9) (fun _ => some "old") (some 3)
        ⟨["out", "ds", "views", "v.sql"]⟩
        (is_forced_for true (some ["v.sql"]) ⟨["out", "ds", "views", "v.sql"]⟩) =
      .FETCH :=
  (force_file_filter (fun _ => some 9) (fun _ => some "old") (some 3)
      ⟨["out", "ds", "views", "v.sql"]⟩ true).2.2 ["v.sql"] rfl
    (Or.inr (by decide))

/-- C5: for every resource kind the orchestrator processes, a SKIP or WARN
decision leaves the filesystem untouched and emits no write, and a write
event can only come from a FETCH decision. -/
theorem writes_only_on_fetch (git : FPath → Option Int) (fs : Fs)
    (ds_dir root : FPath) (dry_run force : Bool)
    (ff : Option (List String)) :
    (∀ v, view_action git fs ds_dir force ff v ≠ .FETCH →
      process_view git fs ds_dir dry_run force ff v = (fs, [])) ∧
    (∀ v p c,
      Event.writeEv p c ∈ (process_view git fs ds_dir dry_run force ff v).2 →
      view_action git fs ds_dir force ff v = .FETCH) ∧
    (∀ r, routine_action git fs ds_dir force ff r ≠ .FETCH →
      process_routine git fs ds_dir dry_run force ff r = (fs, [])) ∧
    (∀ r p c, Event.writeEv p c ∈
        (process_routine git fs ds_dir dry_run force ff r).2 →
      routine_action git fs ds_dir force ff r = .FETCH) ∧
    (∀ t, table_action git fs ds_dir force ff t ≠ .FETCH →
      process_table git fs ds_dir dry_run force ff t = (fs, [])) ∧
    (∀ t p c, Event.writeEv p c ∈
        (process_table git fs ds_dir dry_run force ff t).2 →
      table_action git fs ds_dir force ff t = .FETCH) ∧
    (∀ x, external_action git fs ds_dir force ff x ≠ .FETCH →
      process_external git fs ds_dir dry_run force ff x = (fs, [])) ∧
    (∀ x p c, Event.writeEv p c ∈
        (process_external git fs ds_dir dry_run force ff x).2 →
      external_action git fs ds_dir force ff x = .FETCH) ∧
    (∀ sq, scheduled_action git fs root force ff sq ≠ .FETCH →
      process_scheduled git fs root dry_run force ff sq = (fs, [])) ∧
    (∀ sq p c, Event.writeEv p c ∈
        (process_scheduled git fs root dry_run force ff sq).2 →
      scheduled_action git fs root force ff sq = .FETCH) ∧
    (∀ sv, saved_action git fs root force ff sv ≠ .FETCH →
      process_saved git fs root dry_run force ff sv = (fs, [])) ∧
    (∀ sv p c, Event.writeEv p c ∈
        (process_saved git fs root dry_run force ff sv).2 →
      saved_action git fs root force ff sv = .FETCH) := by
  refine ⟨fun v h => process_view_not_fetch _ _ _ _ _ _ _ h,
    fun v p c hmem => ?_,
    fun r h => process_routine_not_fetch _ _ _ _ _ _ _ h,
    fun r p c hmem => ?_,
    fun t h => process_table_not_fetch _ _ _ _ _ _ _ h,
    fun t p c hmem => ?_,
    fun x h => process_external_not_fetch _ _ _ _ _ _ _ h,
    fun x p c hmem => ?_,
    fun sq h => process_scheduled_not_fetch _ _ _ _ _ _ _ h,
    fun sq p c hmem => ?_,
    fun sv h => process_saved_not_fetch _ _ _ _ _ _ _ h,
    fun sv p c hmem => ?_⟩
  · by_contra hne
    rw [process_view_not_fetch _ _ _ _ _ _ _ hne] at hmem
    simp at hmem
  · by_contra hne
    rw [process_routine_not_fetch _ _ _ _ _ _ _ hne] at hmem
    simp at hmem
  · by_contra hne
    rw [process_table_not_fetch _ _ _ _ _ _ _ hne] at hmem
    simp at hmem
  · by_contra hne
    rw [process_external_not_fetch _ _ _ _ _ _ _ hne] at hmem
    simp at hmem
  · by_contra hne
    rw [process_scheduled_not_fetch _ _ _ _ _ _ _ hne] at hmem
    simp at hmem
  · by_contra hne
    rw [process_saved_not_fetch _ _ _ _ _ _ _ hne] at hmem
    simp at hmem

/-- Witness for C5: a view whose remote timestamp does not beat the commit
timestamp (SKIP) is left untouched by the views loop body. -/
theorem writes_only_on_fetch_witness :
    process_view (fun _ => some 10) (fun _ => some "old") ⟨["out", "ds"]⟩
        false false none
        ⟨"v", "SELECT 1", 5, [], "", none, none⟩ =
      ((fun _ => some "old" : Fs), []) :=
  (writes_only_on_fetch (fun _ => some 10) (fun _ => some "old")
      ⟨["out", "ds"]⟩ ⟨["out"]⟩ false false none).1
    ⟨"v", "SELECT 1", 5, [], "", none, none⟩ (by decide)

/-- C9: when the resolved output root does not exist, `pull_project` skips
the `git status` query entirely and proceeds with the pull (no exit); the
abort can only trigger when the root exists and the status query reports
changes. -/
theorem abort_requires_existing_root (env : Env) (config : SyncConfig)
    (cp : FPath) (dry_run force : Bool) (ff : Option (List String)) :
    (env.rootExists = false →
      Event.gitStatus ∉ (pull_project env config cp dry_run force ff).2 ∧
      (∀ n, Event.exitEv n ∉
        (pull_project env config cp dry_run force ff).2) ∧
      pull_project env config cp dry_run force ff =
        ((pull_project_body env config (resolve_output_dir config cp)
            dry_run force ff).1,
         Event.precheck ::
           (pull_project_body env config (resolve_output_dir config cp)
             dry_run force ff).2)) ∧
    (∀ n, Event.exitEv n ∈ (pull_project env config cp dry_run force ff).2 →
      env.rootExists = true ∧ env.dirty = true) := by
  constructor
  · intro hr
    have heq : pull_project env config cp dry_run force ff =
        ((pull_project_body env config (resolve_output_dir config cp)
            dry_run force ff).1,
         Event.precheck ::
           (pull_project_body env config (resolve_output_dir config cp)
             dry_run force ff).2) := by
      simp [pull_project, hr]
    refine ⟨?_, ?_, heq⟩
    · rw [heq]
      intro hmem
      rcases List.mem_cons.1 hmem with h | h
      · exact absurd h (by decide)
      · exact bodyEvent_ne_gitStatus
          (pull_project_body_events _ _ _ _ _ _ _ h) rfl
    · intro n
      rw [heq]
      intro hmem
      rcases List.mem_cons.1 hmem with h | h
      · simp at h
      · exact bodyEvent_ne_exitEv
          (pull_project_body_events _ _ _ _ _ _ _ h) n rfl
  · intro n hmem
    cases hr : env.rootExists
    · have heq : pull_project env config cp dry_run force ff =
          ((pull_project_body env config (resolve_output_dir config cp)
              dry_run force ff).1,
           Event.precheck ::
             (pull_project_body env config (resolve_output_dir config cp)
               dry_run force ff).2) := by
        simp [pull_project, hr]
      rw [heq] at hmem
      rcases List.mem_cons.1 hmem with h | h
      · simp at h
      · exact absurd rfl
          (bodyEvent_ne_exitEv (pull_project_body_events _ _ _ _ _ _ _ h) n)
    · cases hd : env.dirty
      · have heq : pull_project env config cp dry_run force ff =
            ((pull_project_body env config (resolve_output_dir config cp)
                dry_run force ff).1,
             Event.precheck :: Event.gitStatus ::
               (pull_project_body env config (resolve_output_dir config cp)
                 dry_run force ff).2) := by
          simp [pull_project, hr, hd]
        rw [heq] at hmem
        rcases List.mem_cons.1 hmem with h | h
        · simp at h
        rcases List.mem_cons.1 h with h2 | h2
        · simp at h2
        · exact absurd rfl
            (bodyEvent_ne_exitEv
              (pull_project_body_events _ _ _ _ _ _ _ h2) n)
      · exact ⟨rfl, rfl⟩

/-- Witness for C9: with a missing output root the run performs no
`git status` query. -/
theorem abort_requires_existing_root_witness :
    Event.gitStatus ∉
      (pull_project
          ⟨⟨fun _ => [], fun _ => [], fun _ => [], fun _ => [], [], []⟩,
            fun _ => none, false, true, fun _ => none⟩
          ⟨⟨"proj", "us-east1"⟩, ["ds"], "out"⟩ ⟨["repo"]⟩ false false
          none).2 :=
  ((abort_requires_existing_root
      ⟨⟨fun _ => [], fun _ => [], fun _ => [], fun _ => [], [], []⟩,
        fun _ => none, false, true, fun _ => none⟩
      ⟨⟨"proj", "us-east1"⟩, ["ds"], "out"⟩ ⟨["repo"]⟩ false false
      none).1 rfl).1

/-- C10: with `dry_run` set, `pull_dataset`, `pull_scheduled_queries` and
`pull_saved_queries` write no file at all — the filesystem is returned
unchanged and the trace holds no write event, whatever the decisions. -/
theorem dry_run_no_writes (git : FPath → Option Int) (remote : RemoteEnv)
    (root : FPath) (ds : String) (force : Bool)
    (ff : Option (List String)) (fs : Fs) :
    ((pull_dataset git remote root ds true force ff fs).1 = fs ∧
      ∀ p c, Event.writeEv p c ∉
        (pull_dataset git remote root ds true force ff fs).2) ∧
    ((pull_scheduled_queries git remote root true force ff fs).1 = fs ∧
      ∀ p c, Event.writeEv p c ∉
        (pull_scheduled_queries git remote root true force ff fs).2) ∧
    ((pull_saved_queries git remote root true force ff fs).1 = fs ∧
      ∀ p c, Event.writeEv p c ∉
        (pull_saved_queries git remote root true force ff fs).2) := by
  refine ⟨⟨?_, ?_⟩, ⟨?_, ?_⟩, ⟨?_, ?_⟩⟩
  · rw [pull_dataset_dry]
  · intro p c
    rw [pull_dataset_dry]
    simp
  · rw [pull_scheduled_queries_dry]
  · intro p c
    rw [pull_scheduled_queries_dry]
    simp
  · rw [pull_saved_queries_dry]
  · intro p c
    rw [pull_saved_queries_dry]
    simp

/-- Witness for C10: a concrete dry run over a one-view dataset returns
the filesystem unchanged. -/
theorem dry_run_no_writes_witness :
    (pull_dataset (fun _ => none)
        ⟨fun _ => [⟨"v", "SELECT 1", 5, [], "", none, none⟩],
          fun _ => [], fun _ => [], fun _ => [], [], []⟩
        ⟨["out"]⟩ "ds" true true none (fun _ => none)).1 =
      (fun _ => none : Fs) :=
  (dry_run_no_writes (fun _ => none)
      ⟨fun _ => [⟨"v", "SELECT 1", 5, [], "", none, none⟩],
        fun _ => [], fun _ => [], fun _ => [], [], []⟩
      ⟨["out"]⟩ "ds" true none (fun _ => none)).1.1

end BqSync
